import Mathlib

/-!
Verification development for the bls-api-explorer application (src/app.py).

The application is a single-file reactive UI script. The definitions below
are a shallow embedding of its pure logic: widget-default computations,
the API-key precedence rule, the picklist formatting and series-id
extraction, the result-presentation branching, the CSV download metadata,
and the session-state update performed by the per-interaction rerun of
the script. Tables stand for pandas DataFrames, with columns and rows of
strings; the external API client is modelled as an abstract fetch
function passed in as a parameter.
-/

set_option autoImplicit false

namespace BlsApp

/-- Model of a pandas DataFrame as used by the app: a list of column names
and a list of rows. -/
structure Table where
  columns : List String
  rows : List (List String)
deriving DecidableEq

/-- Model of pandas DataFrame.empty: true when the frame has no rows or no
columns. -/
def Table.isEmpty (t : Table) : Bool :=
  t.rows.isEmpty || t.columns.isEmpty

/-- Empty DataFrame, the pd.DataFrame() default used on line 447 of
src/app.py. -/
def emptyTable : Table := ⟨[], []⟩

/-! Year-range slider (display_api_query_builder, line 208 of src/app.py).
The slider is created with bounds int(minimum_year), int(maximum_year) and
default value (int(maximum_year)-5, int(maximum_year)). -/

/-- Configuration of the st.slider call on line 208: bounds and the default
value tuple. -/
structure YearSlider where
  min_value : Int
  max_value : Int
  value : Int × Int
deriving DecidableEq

/-- Embedding of line 208 of src/app.py: the slider receives bounds
(minimum_year, maximum_year) and the default value
(maximum_year - 5, maximum_year). No clamping is computed by the app. -/
def year_range_slider (minimum_year maximum_year : Int) : YearSlider :=
  ⟨minimum_year, maximum_year, (maximum_year - 5, maximum_year)⟩

/-! API-key resolution (display_api_query_builder, lines 187-204 of
src/app.py). The session stores user_registrationkey, initialised to the
empty string; on each render the text field contents are stripped and, when
non-empty and different from the stored value, saved; the resolved key is
the stored value when non-empty, else the demo key from secrets. -/

/-- Embedding of Python str.strip(): drop leading and trailing whitespace
characters. -/
def py_strip (s : String) : String :=
  String.mk (((s.data.dropWhile Char.isWhitespace).reverse.dropWhile
    Char.isWhitespace).reverse)

/-- Embedding of lines 199-204 of src/app.py. Arguments: the demo key from
st.secrets, the session value st.session_state.user_registrationkey at the
start of the render, and the text-field contents this render. Returns the
resolved registrationkey together with the updated session value. Python
truthiness of a string is non-emptiness, and the or on line 204 returns the
demo key exactly when the stored value is empty. -/
def resolve_registrationkey (demo_registrationkey stored user_registrationkey :
    String) : String × String :=
  let stored' :=
    if py_strip user_registrationkey ≠ "" ∧
        py_strip user_registrationkey ≠ stored then
      py_strip user_registrationkey
    else stored
  let registrationkey := if stored' = "" then demo_registrationkey else stored'
  (registrationkey, stored')

/-! Series picklist (prepare_series_picklist, lines 148-165, and the
multiselect and series-id extraction in display_api_query_builder,
lines 213 and 219 of src/app.py). -/

/-- One element of the metadata series list: an id and an optional title
(series.get of the title key defaults to the empty string). -/
structure SeriesEntry where
  id : String
  title : Option String
deriving DecidableEq

/-- Formatting of one picklist element on line 163 of src/app.py: the id,
a colon, a space, and the title (empty when absent). -/
def picklist_entry (s : SeriesEntry) : String :=
  s.id ++ ": " ++ s.title.getD ""

/-- Embedding of prepare_series_picklist (lines 158-165 of src/app.py):
zip the ids with the titles, defaulting a missing title to the empty
string, and format each pair. -/
def prepare_series_picklist (series : List SeriesEntry) : List String :=
  series.map picklist_entry

/-- Splitting of a character list at every occurrence of a separator
character, the list-level core of Python str.split. -/
def splitOnChar (c : Char) : List Char → List (List Char)
  | [] => [[]]
  | x :: xs =>
    if x = c then [] :: splitOnChar c xs
    else
      match splitOnChar c xs with
      | [] => [[x]]
      | y :: ys => (x :: y) :: ys

/-- Embedding of Python str.split(sep) for a one-character separator. -/
def py_split (c : Char) (s : String) : List String :=
  (splitOnChar c s.data).map String.mk

/-- Embedding of line 219 of src/app.py: for each selected picklist string,
take the piece before the first colon, series_id.split of the colon at
index 0. -/
def extract_seriesids (selected_seriesids : List String) : List String :=
  selected_seriesids.map (fun series_id => (py_split ':' series_id).headD "")

/-- Embedding of the multiselect default on line 213 of src/app.py: the
default is the singleton list holding series_picklist at index 0. Indexing
is embedded as an Option-returning lookup, which has no value when the
picklist is empty (Python raises IndexError there). -/
def multiselect_default (series_picklist : List String) :
    Option (List String) :=
  (series_picklist[0]?).map (fun e => [e])

/-! Code-example panels (display_code, lines 280-385 of src/app.py). -/

/-- Demo key resolution on line 189 of src/app.py: st.secrets.get with the
empty string as default. The secrets store is modelled as an optional
string. -/
def demo_registrationkey (secret : Option String) : String :=
  secret.getD ""

/-- Embedding of line 300 of src/app.py: the key interpolated into the code
examples is the placeholder when registrationkey equals st.secrets.get of
the key name with no default (None when absent, and a Python string never
equals None), else registrationkey itself. -/
def api_key_to_show (secret : Option String) (registrationkey : String) :
    String :=
  match secret with
  | some k => if registrationkey = k then "your_api_key" else registrationkey
  | none => registrationkey

/-- The keys interpolated into the two code snippets of display_code: tab1
interpolates api_key_to_show into the data-retrieval script (line 314) and
tab2 into the metadata-retrieval script (line 339). -/
structure CodePanels where
  data_snippet_key : String
  metadata_snippet_key : String
deriving DecidableEq

/-- Embedding of display_code (lines 280-385 of src/app.py): the panels
render only when the data frame is non-empty, and both snippets show
api_key_to_show. -/
def display_code (data : Table) (secret : Option String)
    (registrationkey : String) : Option CodePanels :=
  if !data.isEmpty then
    some ⟨api_key_to_show secret registrationkey,
          api_key_to_show secret registrationkey⟩
  else none

/-! Result presentation (display_output, lines 224-277 of src/app.py). -/

/-- Zero-pad a number below ten to two digits, as the strftime directives
for month and day do. -/
def pad2 (n : Nat) : String :=
  if n < 10 then "0" ++ toString n else toString n

/-- Embedding of datetime.today().strftime of the year-month-day pattern on
line 265 of src/app.py: four-digit year, dash, two-digit month, dash,
two-digit day. -/
def strftime_ymd (year month day : Nat) : String :=
  toString year ++ "-" ++ pad2 month ++ "-" ++ pad2 day

/-- Lines of the CSV text produced by data.to_csv(index=False) on line 264
of src/app.py: a header row joining the column names with commas, then one
comma-joined line per data row, in the existing order. -/
def csv_lines (data : Table) : List String :=
  String.intercalate "," data.columns ::
    data.rows.map (fun row => String.intercalate "," row)

/-- Embedding of data.to_csv(index=False): the CSV lines joined by
newlines. -/
def to_csv (data : Table) : String :=
  String.intercalate "\n" (csv_lines data)

/-- Arguments of the st.download_button call on lines 267-275 of
src/app.py: contents, file name and MIME type. -/
structure Download where
  data : String
  file_name : String
  mime : String
deriving DecidableEq

/-- File-name formatting on line 270 of src/app.py: the current date
string, a space, the survey abbreviation, and the csv extension. -/
def download_file_name (todays_date survey : String) : String :=
  todays_date ++ " " ++ survey ++ ".csv"

/-- Which widgets display_output rendered. -/
structure RenderOutcome where
  shows_log : Bool
  shows_success_banner : Bool
  shows_balloons : Bool
  shows_csv_button : Bool
deriving DecidableEq

/-- Embedding of display_output (lines 224-277 of src/app.py). Inputs: the
stored data and log frames, the show_balloons session flag, the formatted
current date and the survey abbreviation. When the log is non-empty only
the log is written; otherwise the balloons fire exactly when the flag was
set and the flag is cleared, the success banner and data table render, and
a CSV download button is offered (data is always a DataFrame in this
model, so the isinstance guard on line 263 holds). Returns the outcome,
the offered download, and the new flag value. -/
def display_output (data log : Table) (show_balloons : Bool)
    (todays_date survey : String) :
    RenderOutcome × Option Download × Bool :=
  if !log.isEmpty then
    (⟨true, false, false, false⟩, none, show_balloons)
  else
    (⟨false, true, show_balloons, true⟩,
     some ⟨to_csv data, download_file_name todays_date survey, "text/csv"⟩,
     false)

/-- Joint outcome of one results-rendering pass: display_output followed by
display_code, as called on lines 444-457 of src/app.py. -/
structure RenderPass where
  shows_log : Bool
  shows_success_banner : Bool
  shows_balloons : Bool
  shows_csv_button : Bool
  shows_code_panels : Bool
deriving DecidableEq

/-- One results-rendering pass over stored data and log: runs
display_output, then display_code, and reports which widgets rendered
together with the updated show_balloons flag. -/
def render_pass (data log : Table) (show_balloons : Bool)
    (todays_date survey : String) (secret : Option String)
    (registrationkey : String) : RenderPass × Bool :=
  let out := display_output data log show_balloons todays_date survey
  let code := display_code data secret registrationkey
  (⟨out.1.shows_log, out.1.shows_success_banner, out.1.shows_balloons,
    out.1.shows_csv_button, code.isSome⟩, out.2.2)

/-! Session state and the per-interaction rerun of main
(lines 388-458 of src/app.py). -/

/-- The parameter record stored under bls_params on lines 431-438 of
src/app.py. -/
structure BlsParams where
  seriesids : List String
  startyear : Int
  endyear : Int
  registrationkey : String
  survey_name : String
  survey : String
deriving DecidableEq

/-- The part of st.session_state used by main: the three result keys and
the show_balloons flag. A key absent from the store is modelled as none;
the flag defaults to false via st.session_state.get. -/
structure SessionState where
  bls_data : Option Table
  bls_log : Option Table
  bls_params : Option BlsParams
  show_balloons : Bool
deriving DecidableEq

/-- Session state at process start: no keys set. -/
def init_state : SessionState := ⟨none, none, none, false⟩

/-- The external client get_bls_data, abstracted: from the submitted series
ids, years and key to a data frame and a log frame. -/
def FetchFn : Type :=
  List String → Int → Int → String → Table × Table

/-- Embedding of the submission handler, lines 418-441 of src/app.py: call
get_bls_data with the submitted parameters, store the data, the log and
the parameter record, and set the show_balloons flag. All four writes
happen in this one branch. -/
def handle_submission (fetch : FetchFn) (p : BlsParams)
    (s : SessionState) : SessionState :=
  { s with
    bls_data :=
      some (fetch p.seriesids p.startyear p.endyear p.registrationkey).1,
    bls_log :=
      some (fetch p.seriesids p.startyear p.endyear p.registrationkey).2,
    bls_params := some p,
    show_balloons := true }

/-- Embedding of the results block, lines 443-457 of src/app.py: when
bls_data holds a frame, read the stored log (empty frame when absent) and
the stored parameters and run the rendering pass; the only session write
in this block is the flag clearing inside display_output. When bls_data is
missing nothing renders. A present bls_data with absent bls_params would
raise a KeyError in Python; that combination renders nothing here and is
unreachable from states this model constructs. -/
def render_phase (todays_date : String) (secret : Option String)
    (s : SessionState) : Option RenderPass × SessionState :=
  match s.bls_data, s.bls_params with
  | some data, some p =>
    let r := render_pass data (s.bls_log.getD emptyTable) s.show_balloons
      todays_date p.survey secret p.registrationkey
    (some r.1, { s with show_balloons := r.2 })
  | _, _ => (none, s)

/-- One user interaction as seen by the rerun of main: whether the form was
submitted, and the parameter record the query builder produced for this
render. -/
structure Interaction where
  submitted : Bool
  params : BlsParams
deriving DecidableEq

/-- One full rerun of main for one interaction (lines 417-457 of
src/app.py): handle the submission when the form was submitted, then run
the results block. -/
def main_step (fetch : FetchFn) (todays_date : String)
    (secret : Option String) (i : Interaction) (s : SessionState) :
    Option RenderPass × SessionState :=
  let s1 := if i.submitted then handle_submission fetch i.params s else s
  render_phase todays_date secret s1

/-- Folding main_step over a list of interactions, keeping the session
state. -/
def run_interactions (fetch : FetchFn) (todays_date : String)
    (secret : Option String) (is : List Interaction)
    (s : SessionState) : SessionState :=
  is.foldl (fun s i => (main_step fetch todays_date secret i s).2) s

/-- Whether the balloons animation fired in the outcome of one rerun. -/
def balloons_shown (r : Option RenderPass) : Bool :=
  (r.map RenderPass.shows_balloons).getD false

/-- Consistency of the three result keys: either none of them has ever
been written, or all three come from one submission, the stored data and
log being exactly the fetch result for the stored parameters. -/
def store_consistent (fetch : FetchFn) (s : SessionState) : Prop :=
  (s.bls_data = none ∧ s.bls_log = none ∧ s.bls_params = none) ∨
  ∃ p : BlsParams, s.bls_params = some p ∧
    s.bls_data =
      some (fetch p.seriesids p.startyear p.endyear p.registrationkey).1 ∧
    s.bls_log =
      some (fetch p.seriesids p.startyear p.endyear p.registrationkey).2

/-! Theorems. -/

/-- Claim C4: for every survey whose minimum year Y0 and maximum year Y1
satisfy Y1 - Y0 at least 5, the default year-range selection of the query
builder is exactly (Y1 - 5, Y1). -/
theorem default_year_range_wide (Y0 Y1 : Int) (h : 5 ≤ Y1 - Y0) :
    (year_range_slider Y0 Y1).value = (Y1 - 5, Y1) := rfl

/-- Witness for default_year_range_wide at the CE scenario: minimum year
1990, maximum year 2024, default (2019, 2024). -/
theorem default_year_range_wide_witness :
    (5 : Int) ≤ 2024 - 1990 ∧
      (year_range_slider 1990 2024).value = (2019, 2024) :=
  ⟨by decide, default_year_range_wide 1990 2024 (by decide)⟩

/-- Claim C2 fails as stated: for minimum year 2020 and maximum year 2022
the span is below five, yet the slider default the app computes is
(2017, 2022), not the clamped (2020, 2022). -/
theorem default_year_range_no_clamp_cex :
    (2022 : Int) - 2020 < 5 ∧
    (year_range_slider 2020 2022).value = (2017, 2022) ∧
    (year_range_slider 2020 2022).value ≠ (2020, 2022) := by
  decide

/-- Claim C2 amended: for every survey with Y1 - Y0 below 5, the default
value the app passes to the slider is still (Y1 - 5, Y1); the app performs
no clamping, and the default lower bound then lies strictly below the
slider minimum Y0. -/
theorem default_year_range_narrow (Y0 Y1 : Int) (h : Y1 - Y0 < 5) :
    (year_range_slider Y0 Y1).value = (Y1 - 5, Y1) ∧ Y1 - 5 < Y0 :=
  ⟨rfl, by omega⟩

/-- Witness for default_year_range_narrow at minimum year 2020, maximum
year 2022. -/
theorem default_year_range_narrow_witness :
    (2022 : Int) - 2020 < 5 ∧
    ((year_range_slider 2020 2022).value = (2022 - 5, 2022) ∧
      (2022 : Int) - 5 < 2020) :=
  ⟨by decide, default_year_range_narrow 2020 2022 (by decide)⟩

/-- Claim C3 fails as stated: when the session already stores a previously
entered non-empty key, an empty text-field entry resolves to that stored
key, not to the demo key. With demo key DEMO and stored key OLDKEY, the
empty entry resolves to OLDKEY. -/
theorem resolve_registrationkey_cex :
    py_strip "" = "" ∧
    (resolve_registrationkey "DEMO" "OLDKEY" "").1 = "OLDKEY" ∧
    ("OLDKEY" : String) ≠ "DEMO" := by
  decide

/-- Claim C3 amended: on every render the resolved key is the stripped
entry whenever that is non-empty, overriding the demo key; when the
stripped entry is empty the resolved key is the stored session key when
that is non-empty, and falls back to the demo key only when no non-empty
key was ever stored. -/
theorem resolve_registrationkey_spec (demo stored entry : String) :
    (resolve_registrationkey demo stored entry).1 =
      if py_strip entry = "" then
        (if stored = "" then demo else stored)
      else py_strip entry := by
  unfold resolve_registrationkey
  by_cases h1 : py_strip entry = ""
  · simp [h1]
  · by_cases h2 : py_strip entry = stored
    · have h3 : stored ≠ "" := h2 ▸ h1
      simp [h1, h2, h3]
    · simp [h1, h2]

/-- Claim C10: the multiselect default of the query builder is the
singleton of the first picklist entry when the series list is non-empty,
and the Option-returning index lookup yields none when the series list is
empty, so the render pass cannot complete there. -/
theorem multiselect_default_spec (series : List SeriesEntry) :
    multiselect_default (prepare_series_picklist series) =
      match series with
      | [] => none
      | s :: _ => some [picklist_entry s] := by
  cases series with
  | nil => rfl
  | cons s t => simp [multiselect_default, prepare_series_picklist]

/-- Head of splitOnChar on a cons cell. -/
theorem splitOnChar_cons_headD (c x : Char) (xs : List Char) :
    (splitOnChar c (x :: xs)).headD [] =
      if x = c then [] else x :: (splitOnChar c xs).headD [] := by
  by_cases h : x = c
  · simp [splitOnChar, h]
  · simp only [splitOnChar, if_neg h]
    cases hs : splitOnChar c xs with
    | nil => simp [hs]
    | cons y ys => simp [hs]

/-- Head of the split is the longest separator-free prefix. -/
theorem splitOnChar_headD_takeWhile (c : Char) (l : List Char) :
    (splitOnChar c l).headD [] = l.takeWhile (fun x => !(x == c)) := by
  induction l with
  | nil => rfl
  | cons x xs ih =>
    rw [splitOnChar_cons_headD, List.takeWhile_cons, ih]
    by_cases h : x = c
    · simp [h]
    · simp [h]

/-- A split result is never the empty list of pieces. -/
theorem splitOnChar_ne_nil (c : Char) (l : List Char) :
    splitOnChar c l ≠ [] := by
  cases l with
  | nil => simp [splitOnChar]
  | cons x xs =>
    by_cases h : x = c
    · simp [splitOnChar, h]
    · simp only [splitOnChar, if_neg h]
      cases splitOnChar c xs <;> simp

/-- The separator-free prefix before an explicit separator occurrence. -/
theorem takeWhile_append_sep (c : Char) (l r : List Char) (h : c ∉ l) :
    (l ++ c :: r).takeWhile (fun x => !(x == c)) = l := by
  induction l with
  | nil => simp [List.takeWhile_cons]
  | cons x xs ih =>
    simp only [List.mem_cons, not_or] at h
    have hx : (x == c) = false := by
      simp only [beq_eq_false_iff_ne, ne_eq]
      exact fun he => h.1 he.symm
    simp only [List.cons_append, List.takeWhile_cons, hx]
    simp [ih h.2]

/-- Head of py_split as a string built from the list-level head. -/
theorem py_split_headD (c : Char) (s : String) :
    (py_split c s).headD "" = String.mk ((splitOnChar c s.data).headD []) := by
  unfold py_split
  cases hs : splitOnChar c s.data with
  | nil => exact absurd hs (splitOnChar_ne_nil c s.data)
  | cons y ys => simp [hs]

/-- Splitting a picklist entry at the first colon recovers the series id
whenever the id itself contains no colon. -/
theorem extract_picklist_entry (s : SeriesEntry) (h : ':' ∉ s.id.data) :
    (py_split ':' (picklist_entry s)).headD "" = s.id := by
  rw [py_split_headD]
  have hd : (picklist_entry s).data =
      s.id.data ++ ':' :: ' ' :: (s.title.getD "").data := by
    simp [picklist_entry, String.data_append]
  rw [hd, splitOnChar_headD_takeWhile, takeWhile_append_sep ':' _ _ h]

/-- Claim C5: each picklist entry is the series id, a colon and a space,
and the title (empty when absent); and for every ordered selection of
entries built from series whose ids contain no colon, the extracted
series_ids are exactly the ids of the selected series, in the same
order, regardless of colons inside the titles. -/
theorem picklist_roundtrip (selected : List SeriesEntry)
    (h : ∀ s ∈ selected, ':' ∉ s.id.data) :
    prepare_series_picklist selected =
      selected.map (fun s => s.id ++ ": " ++ s.title.getD "") ∧
    extract_seriesids (prepare_series_picklist selected) =
      selected.map SeriesEntry.id := by
  refine ⟨rfl, ?_⟩
  unfold extract_seriesids prepare_series_picklist
  rw [List.map_map]
  exact List.map_congr_left (fun s hs => extract_picklist_entry s (h s hs))

/-- Witness for picklist_roundtrip at the scenario of the spec: the two
selected series yield their raw ids in order, the second title containing
no colon and the ids containing none. -/
theorem picklist_roundtrip_witness :
    (∀ s ∈ ([⟨"LNS14000000", some "Unemployment Rate"⟩,
             ⟨"CES0000000001", some "Total Nonfarm"⟩] : List SeriesEntry),
        ':' ∉ s.id.data) ∧
    extract_seriesids (prepare_series_picklist
        [⟨"LNS14000000", some "Unemployment Rate"⟩,
         ⟨"CES0000000001", some "Total Nonfarm"⟩]) =
      ["LNS14000000", "CES0000000001"] :=
  ⟨by decide,
   (picklist_roundtrip
      [⟨"LNS14000000", some "Unemployment Rate"⟩,
       ⟨"CES0000000001", some "Total Nonfarm"⟩] (by decide)).2⟩

/-- Claim C1 fails as stated: with a non-empty log and a non-empty data
frame the code panels still render, because display_code checks only
whether the data frame is empty, never the log. -/
theorem error_state_code_panels_cex :
    (⟨["message"], [["bad request"]]⟩ : Table).isEmpty = false ∧
    (render_pass ⟨["series_id"], [["LNS14000000"]]⟩
        ⟨["message"], [["bad request"]]⟩ false
        "2025-06-01" "CE" (some "DEMO") "DEMO").1.shows_code_panels =
      true := by
  decide

/-- Claim C1 amended: for every fetch result whose log table is non-empty,
the rendering pass shows the log table and none of the success banner, the
balloons animation, or the CSV download button; the code panels, however,
render exactly when the data table is non-empty, so they can render
alongside a non-empty log. -/
theorem error_state_render (data log : Table) (flag : Bool)
    (todays_date survey : String) (secret : Option String) (key : String)
    (h : log.isEmpty = false) :
    (render_pass data log flag todays_date survey secret key).1 =
      ⟨true, false, false, false, !data.isEmpty⟩ := by
  cases hd : data.isEmpty <;>
    simp [render_pass, display_output, display_code, h, hd]

/-- Witness for error_state_render: an empty data frame together with a
non-empty log renders only the log. -/
theorem error_state_render_witness :
    (⟨["message"], [["err"]]⟩ : Table).isEmpty = false ∧
    (render_pass emptyTable ⟨["message"], [["err"]]⟩ true
        "2025-06-01" "CE" none "k").1 =
      ⟨true, false, false, false, false⟩ :=
  ⟨by decide,
   (error_state_render emptyTable ⟨["message"], [["err"]]⟩ true
      "2025-06-01" "CE" none "k" (by decide)).trans (by decide)⟩

/-- Claim C7 fails as stated when the configured secret is absent: the demo
key is then the empty string, an empty resolved key equals it, and yet the
panels show that key rather than the placeholder, because line 300 of
src/app.py compares against the secret with no default. -/
theorem api_key_redaction_cex :
    demo_registrationkey none = "" ∧
    display_code ⟨["year"], [["2024"]]⟩ none "" = some ⟨"", ""⟩ ∧
    ("" : String) ≠ "your_api_key" := by
  decide

/-- Claim C7 amended: whenever the code panels render, both snippets show
the one key api_key_to_show computes; whenever the secrets store holds a
value and the resolved key equals it, that shown key is the placeholder;
and whenever the resolved key differs from the demo key, the shown key is
the resolved key itself. When the secrets store is empty no redaction
occurs, even though the resolved key may equal the empty demo key. -/
theorem api_key_redaction (secret : Option String) (key : String)
    (data : Table) (h : data.isEmpty = false) :
    display_code data secret key =
      some ⟨api_key_to_show secret key, api_key_to_show secret key⟩ ∧
    (∀ k, secret = some k → key = k →
      api_key_to_show secret key = "your_api_key") ∧
    (key ≠ demo_registrationkey secret → api_key_to_show secret key = key) := by
  refine ⟨by simp [display_code, h], ?_, ?_⟩
  · rintro k rfl rfl
    simp [api_key_to_show]
  · intro hk
    cases secret with
    | none => rfl
    | some k =>
      have hkk : key ≠ k := hk
      simp [api_key_to_show, hkk]

/-- Witness for api_key_redaction: with the demo secret present and the
resolved key equal to it, the shown key is the placeholder. -/
theorem api_key_redaction_witness :
    (⟨["year"], [["2024"]]⟩ : Table).isEmpty = false ∧
    api_key_to_show (some "DEMO") "DEMO" = "your_api_key" :=
  ⟨by decide,
   (api_key_redaction (some "DEMO") "DEMO" ⟨["year"], [["2024"]]⟩
      (by decide)).2.1 "DEMO" rfl rfl⟩

/-- Claim C9: for every successful result rendered on a current date given
by strftime with the year-month-day pattern and a stored survey
abbreviation, the offered download has the date, a space, the abbreviation
and the csv extension as file name, MIME type text/csv, and CSV contents
whose first line is the header joining the column names in their existing
order; at the scenario date the file name is 2025-06-01 CE.csv. -/
theorem csv_download_spec (y m d : Nat) (survey : String)
    (data log : Table) (flag : Bool) (h : log.isEmpty = true) :
    (display_output data log flag (strftime_ymd y m d) survey).2.1 =
      some ⟨to_csv data,
            strftime_ymd y m d ++ " " ++ survey ++ ".csv", "text/csv"⟩ ∧
    (csv_lines data).headD "" = String.intercalate "," data.columns ∧
    download_file_name (strftime_ymd 2025 6 1) "CE" = "2025-06-01 CE.csv" := by
  refine ⟨?_, rfl, by decide⟩
  simp [display_output, h, download_file_name]

/-- Witness for csv_download_spec: a one-column table on the scenario date
yields the scenario file name and the text/csv MIME type. -/
theorem csv_download_spec_witness :
    emptyTable.isEmpty = true ∧
    (display_output ⟨["year"], [["2024"]]⟩ emptyTable false
        (strftime_ymd 2025 6 1) "CE").2.1 =
      some ⟨to_csv ⟨["year"], [["2024"]]⟩, "2025-06-01 CE.csv", "text/csv"⟩ :=
  ⟨by decide,
   ((csv_download_spec 2025 6 1 "CE" ⟨["year"], [["2024"]]⟩ emptyTable false
      (by decide)).1).trans (by decide)⟩

/-- Claim C6: when the fetched log is empty, the balloons animation fires
on the first render after a fresh submission, the flag being set by the
submission handler and cleared when consumed, and it does not fire on a
subsequent re-render without submission; that re-render leaves the session
state unchanged. -/
theorem balloons_one_shot (fetch : FetchFn) (todays_date : String)
    (secret : Option String) (p q : BlsParams) (s : SessionState)
    (h : (fetch p.seriesids p.startyear p.endyear
        p.registrationkey).2.isEmpty = true) :
    balloons_shown (main_step fetch todays_date secret ⟨true, p⟩ s).1 =
      true ∧
    balloons_shown (main_step fetch todays_date secret ⟨false, q⟩
        (main_step fetch todays_date secret ⟨true, p⟩ s).2).1 = false ∧
    (main_step fetch todays_date secret ⟨false, q⟩
        (main_step fetch todays_date secret ⟨true, p⟩ s).2).2 =
      (main_step fetch todays_date secret ⟨true, p⟩ s).2 := by
  simp [main_step, handle_submission, render_phase, render_pass,
        display_output, display_code, balloons_shown, h]

/-- Witness for balloons_one_shot: a constant fetch result with an empty
log, submitted once from the initial state and then re-rendered. -/
theorem balloons_one_shot_witness :
    balloons_shown (main_step
        (fun _ _ _ _ => (⟨["year"], [["2024"]]⟩, emptyTable))
        "2025-06-01" none
        ⟨true, ⟨["LNS14000000"], 2019, 2024, "k", "name", "CE"⟩⟩
        init_state).1 = true ∧
    balloons_shown (main_step
        (fun _ _ _ _ => (⟨["year"], [["2024"]]⟩, emptyTable))
        "2025-06-01" none
        ⟨false, ⟨["LNS14000000"], 2019, 2024, "k", "name", "CE"⟩⟩
        (main_step (fun _ _ _ _ => (⟨["year"], [["2024"]]⟩, emptyTable))
          "2025-06-01" none
          ⟨true, ⟨["LNS14000000"], 2019, 2024, "k", "name", "CE"⟩⟩
          init_state).2).1 = false :=
  ⟨(balloons_one_shot (fun _ _ _ _ => (⟨["year"], [["2024"]]⟩, emptyTable))
      "2025-06-01" none ⟨["LNS14000000"], 2019, 2024, "k", "name", "CE"⟩
      ⟨["LNS14000000"], 2019, 2024, "k", "name", "CE"⟩ init_state
      (by decide)).1,
   (balloons_one_shot (fun _ _ _ _ => (⟨["year"], [["2024"]]⟩, emptyTable))
      "2025-06-01" none ⟨["LNS14000000"], 2019, 2024, "k", "name", "CE"⟩
      ⟨["LNS14000000"], 2019, 2024, "k", "name", "CE"⟩ init_state
      (by decide)).2.1⟩

/-- The render phase never writes the three result keys. -/
theorem render_phase_result_keys (todays_date : String)
    (secret : Option String) (s : SessionState) :
    (render_phase todays_date secret s).2.bls_data = s.bls_data ∧
    (render_phase todays_date secret s).2.bls_log = s.bls_log ∧
    (render_phase todays_date secret s).2.bls_params = s.bls_params := by
  unfold render_phase
  cases hd : s.bls_data <;> cases hp : s.bls_params <;> simp [hd, hp]

/-- Store consistency only depends on the three result keys. -/
theorem store_consistent_congr (fetch : FetchFn) {s t : SessionState}
    (hd : t.bls_data = s.bls_data) (hl : t.bls_log = s.bls_log)
    (hp : t.bls_params = s.bls_params) (h : store_consistent fetch s) :
    store_consistent fetch t := by
  unfold store_consistent at h ⊢
  rw [hd, hl, hp]
  exact h

/-- One rerun of main preserves store consistency: a submission writes all
three result keys together from one fetch call, and the render phase
writes none of them. -/
theorem main_step_store_consistent (fetch : FetchFn) (todays_date : String)
    (secret : Option String) (i : Interaction) (s : SessionState)
    (h : store_consistent fetch s) :
    store_consistent fetch (main_step fetch todays_date secret i s).2 := by
  unfold main_step
  cases hsub : i.submitted with
  | true =>
    simp only [if_true]
    obtain ⟨hd, hl, hp⟩ := render_phase_result_keys todays_date secret
      (handle_submission fetch i.params s)
    exact store_consistent_congr fetch hd hl hp
      (Or.inr ⟨i.params, rfl, rfl, rfl⟩)
  | false =>
    simp only [Bool.false_eq_true, if_false]
    obtain ⟨hd, hl, hp⟩ := render_phase_result_keys todays_date secret s
    exact store_consistent_congr fetch hd hl hp h

/-- Claim C8: the three result keys are written only as a group by the
submission handler, so across any sequence of interactions the stored
parameters are exactly those of the submission whose fetch produced the
stored data and log; a reader never observes a mismatch. -/
theorem session_store_group_write (fetch : FetchFn) (todays_date : String)
    (secret : Option String) (is : List Interaction) (s : SessionState)
    (h : store_consistent fetch s) :
    store_consistent fetch
      (run_interactions fetch todays_date secret is s) := by
  induction is generalizing s with
  | nil => exact h
  | cons i rest ih =>
    exact ih (main_step fetch todays_date secret i s).2
      (main_step_store_consistent fetch todays_date secret i s h)

/-- Witness for session_store_group_write: a submission followed by a
re-render, starting from the empty initial store, keeps the store
consistent. -/
theorem session_store_group_write_witness :
    store_consistent
      (fun _ _ _ _ => (⟨["year"], [["2024"]]⟩, emptyTable))
      (run_interactions
        (fun _ _ _ _ => (⟨["year"], [["2024"]]⟩, emptyTable))
        "2025-06-01" none
        [⟨true, ⟨["LNS14000000"], 2019, 2024, "k", "name", "CE"⟩⟩,
         ⟨false, ⟨["LNS14000000"], 2019, 2024, "k", "name", "CE"⟩⟩]
        init_state) :=
  session_store_group_write
    (fun _ _ _ _ => (⟨["year"], [["2024"]]⟩, emptyTable))
    "2025-06-01" none
    [⟨true, ⟨["LNS14000000"], 2019, 2024, "k", "name", "CE"⟩⟩,
     ⟨false, ⟨["LNS14000000"], 2019, 2024, "k", "name", "CE"⟩⟩]
    init_state (Or.inl ⟨rfl, rfl, rfl⟩)

end BlsApp
